import Mathlib

/-!
Verification development for the Khata-Server transaction core
(`controllers/transactionController.js` + `models/transactionSchema.js`).

Shallow embedding conventions:
* A JavaScript number is modelled by `JSNum`: either NaN, +Infinity,
  -Infinity, or a finite rational.
* A JS `Date` value (millisecond timestamp) is modelled at minute
  resolution by an `Int`: `1440 * day + minuteOfDay`, where `day` is the
  civil day number produced by the `new Date(y, m, d)` constructor
  (month 0-based with overflow normalisation, day may be 0 or negative).
  The claims are about whole-day boundaries, so minute resolution is
  enough and the scale is uniform across filters and records.
* Optional request-body / query fields are modelled by `Option`;
  `none` means absent.  A JS empty string is a present `some ("")` and is
  falsy, which the `strTruthy` helper captures.  Query parameters arrive
  as strings in JS, so a present parameter is always truthy there; for
  numeric parameters we model the already-coerced number.
* The Mongo collection is a `List Transaction`; each operation is a pure
  function from the database (plus request data) to a result and the new
  database state.
-/

namespace Khata

/-- Model of a JavaScript number: NaN, the two infinities, or a finite
rational. -/
inductive JSNum where
  | nan
  | posInf
  | negInf
  | fin (q : Rat)
deriving DecidableEq

/-- JS truthiness of a possibly-absent number: `undefined`, `NaN` and `0`
are falsy. -/
def numTruthy : Option JSNum → Bool
  | none => false
  | some .nan => false
  | some (.fin q) => !(q == 0)
  | some _ => true

/-- JS truthiness of a possibly-absent string: `undefined` and `""` are
falsy. -/
def strTruthy : Option String → Bool
  | none => false
  | some s => !(s == "")

/-- JS comparison `n <= 0` (false for NaN). -/
def JSNum.le0 : JSNum → Bool
  | .nan => false
  | .posInf => false
  | .negInf => true
  | .fin q => decide (q ≤ 0)

/-- JS comparison `n > 0` (false for NaN). -/
def JSNum.gt0 : JSNum → Bool
  | .nan => false
  | .posInf => true
  | .negInf => false
  | .fin q => decide (0 < q)

/-- The finite value of a JS number (0 for the non-finite cases, which
never reach a stored record because validation rejects them). -/
def JSNum.toRat : JSNum → Rat
  | .fin q => q
  | _ => 0

/-- The rational 1/100, the schema's `min: 0.01` bound, built without
`Rat` division so that it reduces in the kernel. -/
def ratCent : Rat := Rat.mk' 1 100 (by decide) (Nat.coprime_one_left 100)

/-- JS `String.prototype.trim` / mongoose `trim: true`, via the
underlying character list (kernel-reducible, unlike `String.trim`). -/
def jsTrim (s : String) : String :=
  String.mk (((s.data.dropWhile Char.isWhitespace).reverse.dropWhile
    Char.isWhitespace).reverse)

/-- Civil day number (days since 1970-01-01) of year/month/day with
month in 1..12; linear in `d`, so day 0 is the day before the 1st.
Standard days-from-civil algorithm. -/
def daysFromCivil (y m d : Int) : Int :=
  let y2 := if m ≤ 2 then y - 1 else y
  let era := y2.fdiv 400
  let yoe := y2 - era * 400
  let doy := (153 * (if 2 < m then m - 3 else m + 9) + 2).fdiv 5 + d - 1
  let doe := yoe * 365 + yoe.fdiv 4 - yoe.fdiv 100 + doy
  era * 146097 + doe - 719468

/-- Civil day number of the JS constructor `new Date(y, m, d)`:
`m` is 0-based and overflows into the year, `d` overflows (or
underflows, `0` meaning the last day of the previous month) into the
month. -/
def jsMakeDay (y m d : Int) : Int :=
  daysFromCivil (y + m.fdiv 12) (m.emod 12 + 1) d

/-- Minute-resolution timestamp of local midnight of `new Date(y, m, d)`. -/
def jsMakeDate (y m d : Int) : Int := 1440 * jsMakeDay y m d

/-- JS `Math.ceil` on an exact rational, built from `Int.fdiv` so that it
reduces in the kernel. -/
def jsMathCeil (x : Rat) : Int := -((Rat.num (-x)).fdiv ((Rat.den (-x) : Int)))

/-- A Mongo date condition: either no restriction or an inclusive
`gte/lte` range (both endpoints minute timestamps). -/
inductive DateFilter where
  | noFilter
  | range (gte lte : Int)
deriving DecidableEq

/-- Whether a record's `date` satisfies the date condition. -/
def dateMatches : DateFilter → Int → Bool
  | .noFilter, _ => true
  | .range g l, t => decide (g ≤ t) && decide (t ≤ l)

/-- Date-filter assembly of `getTransactions` (controller lines 23-42):
explicit `startDate`/`endDate` range first, else `month`+`year`
(month 1-based in the query, passed 0-based to `new Date`), else `year`
alone, else no restriction. -/
def buildDateFilter (startDate endDate month year : Option Int) : DateFilter :=
  match startDate, endDate with
  | some s, some e => .range s e
  | _, _ =>
    match month, year with
    | some m, some y => .range (jsMakeDate y (m - 1) 1) (jsMakeDate y m 0)
    | _, _ =>
      match year with
      | some y => .range (jsMakeDate y 0 1) (jsMakeDate y 11 31)
      | none => .noFilter

/-- Date-filter assembly of `getStatistics` (controller lines 298-311);
same month/year logic, no explicit-range branch. -/
def statsDateFilter (month year : Option Int) : DateFilter :=
  match month, year with
  | some m, some y => .range (jsMakeDate y (m - 1) 1) (jsMakeDate y m 0)
  | _, _ =>
    match year with
    | some y => .range (jsMakeDate y 0 1) (jsMakeDate y 11 31)
    | none => .noFilter

/-- A stored (already validated) transaction document. -/
structure Transaction where
  id : String
  userId : String
  date : Int
  createdAt : Int
  description : String
  category : String
  type : String
  amount : Rat
deriving DecidableEq

/-- A candidate document before schema validation (`amount` may still be
non-finite).  String fields hold the values after mongoose's `trim`
setter has run. -/
structure RawTransaction where
  id : String
  userId : String
  date : Int
  createdAt : Int
  description : String
  category : String
  type : String
  amount : JSNum
deriving DecidableEq

/-- The schema's closed `category` enum (`transactionSchema.js`). -/
def categories : List String :=
  ["Food & Dining", "Transportation", "Shopping", "Entertainment",
   "Bills & Utilities", "Healthcare", "Education", "Travel", "Business",
   "Income", "Other"]

/-- Per-path validation of `amount` (`transactionSchema.js` lines 42-52):
`min: [0.01]` first, then the custom finite-and-positive validator;
mongoose keeps the first failing validator's message per path. -/
def amountErrors : JSNum → List String
  | .nan => ["Amount must be greater than 0"]
  | .posInf => ["Amount must be a valid positive number"]
  | .negInf => ["Amount must be greater than 0"]
  | .fin q => if q < ratCent then ["Amount must be greater than 0"] else []

/-- Mongoose schema validation of a candidate document, returning the
list of validation-error messages in schema field order (empty list
means the document is valid).  For string paths `required` fails on the
empty string; `description` is checked against `maxlength: 200`;
`category` and `type` against their enums. -/
def schemaValidate (r : RawTransaction) : List String :=
  (if r.userId == "" then ["User ID is required"] else [])
    ++ (if r.description == "" then ["Description is required"]
        else if 200 < r.description.length then
          ["Description cannot exceed 200 characters"]
        else [])
    ++ (if r.category == "" then ["Category is required"]
        else if categories.contains r.category then []
        else ["category is not a valid enum value"])
    ++ (if r.type == "" then ["Type is required"]
        else if (["income", "expense"] : List String).contains r.type then []
        else ["type is not a valid enum value"])
    ++ amountErrors r.amount

/-- The stored document produced by a successfully validated candidate. -/
def toStored (r : RawTransaction) : Transaction :=
  { id := r.id, userId := r.userId, date := r.date, createdAt := r.createdAt,
    description := r.description, category := r.category, type := r.type,
    amount := r.amount.toRat }

/-- View of a stored document as a validation candidate. -/
def Transaction.toRaw (t : Transaction) : RawTransaction :=
  { id := t.id, userId := t.userId, date := t.date, createdAt := t.createdAt,
    description := t.description, category := t.category, type := t.type,
    amount := .fin t.amount }

/-- Request body of `createTransaction`.  A `userId` field may be present
in the JSON body; the controller's destructuring never reads it. -/
structure CreateBody where
  userId : Option String
  date : Option Int
  description : Option String
  category : Option String
  type : Option String
  amount : Option JSNum
deriving DecidableEq

/-- Outcome of `createTransaction`: `missingFields`, `invalidType` and
`invalidAmount` are the three controller-level 400s (lines 85-104),
`validationError` is the mongoose 400 (line 127), `created` is the 201. -/
inductive CreateResult where
  | missingFields
  | invalidType
  | invalidAmount
  | validationError (errs : List String)
  | created (t : Transaction)
deriving DecidableEq

/-- `createTransaction` (controller lines 80-141).  `u` is `req.userId`
from the auth middleware, `newId` the Mongo-assigned `_id`, `now` the
clock used for the `date` default and `createdAt`. -/
def createTransaction (u newId : String) (now : Int) (b : CreateBody) :
    CreateResult :=
  if !(strTruthy b.description && strTruthy b.category && strTruthy b.type
      && numTruthy b.amount) then
    .missingFields
  else if !((["income", "expense"] : List String).contains (b.type.getD (""))) then
    .invalidType
  else if (b.amount.getD .nan).le0 then
    .invalidAmount
  else
    let r : RawTransaction :=
      { id := newId, userId := u, date := b.date.getD now, createdAt := now,
        description := jsTrim (b.description.getD ("")),
        category := b.category.getD (""), type := b.type.getD (""),
        amount := b.amount.getD .nan }
    match schemaValidate r with
    | [] => .created (toStored r)
    | errs => .validationError errs

/-- Query parameters of `getTransactions`.  `page`, `limit`, `month`,
`year`, `startDate`, `endDate` are modelled as already-parsed numbers
(timestamps for the two dates). -/
structure ListQuery where
  page : Option Int
  limit : Option Int
  type : Option String
  category : Option String
  startDate : Option Int
  endDate : Option Int
  month : Option Int
  year : Option Int
deriving DecidableEq

/-- The Mongo filter of `getTransactions` (lines 10-42) applied to one
document: owner scope, optional `type` (only when it is exactly
`income`/`expense`), optional `category`, and the date condition. -/
def txMatches (u : String) (q : ListQuery) (t : Transaction) : Bool :=
  t.userId == u
    && (if strTruthy q.type
          && (["income", "expense"] : List String).contains (q.type.getD ("")) then
          t.type == q.type.getD ("")
        else true)
    && (if strTruthy q.category then t.category == q.category.getD ("") else true)
    && dateMatches (buildDateFilter q.startDate q.endDate q.month q.year) t.date

/-- The sort key of `getTransactions`: `date` descending, then
`createdAt` descending. -/
def txLe (a b : Transaction) : Bool :=
  decide (b.date < a.date)
    || (a.date == b.date && decide (b.createdAt ≤ a.createdAt))

/-- The `pagination` object of the list response. -/
structure Pagination where
  currentPage : Int
  totalPages : Int
  totalTransactions : Nat
  limit : Int
deriving DecidableEq

/-- The `data` object of the list response. -/
structure ListResponse where
  transactions : List Transaction
  pagination : Pagination
deriving DecidableEq

/-- `getTransactions` (controller lines 5-77): build the filter, sort,
apply `skip = (page-1)*limit` and `limit`, and report
`totalPages = Math.ceil(total / limit)`. -/
def getTransactions (db : List Transaction) (u : String) (q : ListQuery) :
    ListResponse :=
  let p := q.page.getD 1
  let l := q.limit.getD 10
  let matched := db.filter (txMatches u q)
  let sorted := matched.mergeSort txLe
  let txs := (sorted.drop ((p - 1) * l).toNat).take l.toNat
  { transactions := txs,
    pagination :=
      { currentPage := p,
        totalPages := jsMathCeil (Rat.divInt (matched.length : Int) l),
        totalTransactions := matched.length,
        limit := l } }

/-- Model of the external `mongoose.isValidObjectId`: a 24-character hex
string (the canonical ObjectId syntax). -/
def isValidObjectId (s : String) : Bool :=
  s.length == 24 && s.data.all fun c =>
    c.isDigit || (('a') ≤ c && c ≤ ('f')) || (('A') ≤ c && c ≤ ('F'))

/-- Request body of `updateTransaction` (the destructured subset). -/
structure UpdateBody where
  date : Option Int
  description : Option String
  category : Option String
  type : Option String
  amount : Option JSNum
deriving DecidableEq

/-- Field application of `updateTransaction` (lines 166-171): every
supplied field is guarded by JS truthiness, `type` additionally by the
enum membership and `amount` by `> 0`; a field failing its guard leaves
the stored value untouched. -/
def applyUpdates (t : Transaction) (b : UpdateBody) : RawTransaction :=
  let r0 := t.toRaw
  let r1 := match b.date with
    | some d => { r0 with date := d }
    | none => r0
  let r2 := if strTruthy b.description then
      { r1 with description := jsTrim (b.description.getD ("")) }
    else r1
  let r3 := if strTruthy b.category then { r2 with category := b.category.getD ("") }
    else r2
  let r4 := if strTruthy b.type
      && (["income", "expense"] : List String).contains (b.type.getD ("")) then
      { r3 with type := b.type.getD ("") }
    else r3
  if numTruthy b.amount && (b.amount.getD .nan).gt0 then
    { r4 with amount := b.amount.getD .nan }
  else r4

/-- Outcome of `updateTransaction`: 400 for a malformed id, 404 when no
owned document matches, 400 with messages when the mongoose save fails
validation, 200 with the updated document otherwise. -/
inductive UpdateResult where
  | invalidId
  | notFound
  | validationError (errs : List String)
  | ok (t : Transaction)
deriving DecidableEq

/-- Replace the first list entry satisfying `p` (the effect of saving the
document that `findOne` returned). -/
def replaceFirst (p : Transaction → Bool) (t' : Transaction) :
    List Transaction → List Transaction
  | [] => []
  | t :: ts => if p t then t' :: ts else t :: replaceFirst p t' ts

/-- `updateTransaction` (controller lines 144-198): id syntax check, then
`findOne` scoped by id and owner, then guarded field application and a
validating save. -/
def updateTransaction (db : List Transaction) (u id : String)
    (b : UpdateBody) : UpdateResult × List Transaction :=
  if !(isValidObjectId id) then (.invalidId, db)
  else
    match db.find? (fun t => t.id == id && t.userId == u) with
    | none => (.notFound, db)
    | some t =>
      let r := applyUpdates t b
      match schemaValidate r with
      | [] =>
        (.ok (toStored r),
         replaceFirst (fun x => x.id == id && x.userId == u) (toStored r) db)
      | errs => (.validationError errs, db)

/-- Outcome of `deleteTransaction`. -/
inductive DeleteResult where
  | invalidId
  | notFound
  | ok
deriving DecidableEq

/-- `deleteTransaction` (controller lines 201-234): id syntax check, then
`findOneAndDelete` scoped by id and owner. -/
def deleteTransaction (db : List Transaction) (u id : String) :
    DeleteResult × List Transaction :=
  if !(isValidObjectId id) then (.invalidId, db)
  else
    match db.find? (fun t => t.id == id && t.userId == u) with
    | none => (.notFound, db)
    | some _ => (.ok, db.eraseP (fun t => t.id == id && t.userId == u))

/-- One row of the bulk-create request body; a `userId` field may be
present and is overridden by the spread in the controller. -/
structure BulkRow where
  userId : Option String
  date : Option Int
  description : Option String
  category : Option String
  type : Option String
  amount : Option JSNum
deriving DecidableEq

/-- The stamping step of `bulkCreateTransactions` (lines 249-254): spread
the row, then force `userId := req.userId`, default the date to now, and
`parseFloat` the amount (`parseFloat(undefined)` is NaN).  String fields
pass through mongoose's `trim` setter on insertion. -/
def stampRow (u : String) (now : Int) (id : String) (row : BulkRow) :
    RawTransaction :=
  { id := id, userId := u, date := row.date.getD now, createdAt := now,
    description := jsTrim (row.description.getD ("")),
    category := row.category.getD (""), type := row.type.getD (""),
    amount := row.amount.getD .nan }

/-- Outcome of `bulkCreateTransactions`: `emptyBatch` is the 400 for a
missing/empty array, `allCreated` the 201 success path carrying the
inserted records, and `mixed` the controller's `BulkWriteError` 207
branch (lines 270-283) carrying `insertedCount`, `writeErrors.length`
and the per-record errors — a branch the model proves unreachable, since
validation failures never throw. -/
inductive BulkResult where
  | emptyBatch
  | allCreated (ts : List Transaction)
  | mixed (created failed : Nat) (errs : List (List String))
deriving DecidableEq

/-- The `transactionsWithUser` array (controller lines 249-254): every
row stamped with the caller's id, a defaulted date and a parsed amount. -/
def bulkStamped (u : String) (now : Int) (idGen : Nat → String)
    (rows : List BulkRow) : List RawTransaction :=
  rows.enum.map fun p => stampRow u now (idGen p.1) p.2

/-- The documents of an unordered `insertMany` batch that pass schema
validation and are therefore inserted; mongoose silently skips the
rest. -/
def bulkValid (u : String) (now : Int) (idGen : Nat → String)
    (rows : List BulkRow) : List RawTransaction :=
  (bulkStamped u now idGen rows).filter fun r => schemaValidate r == []

/-- `bulkCreateTransactions` (controller lines 237-290) over the real
behaviour of mongoose 8's `insertMany` with `ordered: false` and the
default `throwOnValidationError: false` (the repository pins
`mongoose: ^8.19.1`): documents failing client-side schema validation
are silently skipped and the call resolves with the inserted subset, so
no error ever reaches the catch block for a validation failure and every
non-empty batch is answered by the 201 success path.  The
`error.name === 'BulkWriteError'` handler (the 207 branch) never fires:
validation failures do not throw, and a genuine server-side bulk write
error is named `MongoBulkWriteError` in mongoose 8, which would fall
through to the 500 branch anyway. -/
def bulkCreateTransactions (db : List Transaction) (u : String) (now : Int)
    (idGen : Nat → String) (body : Option (List BulkRow)) :
    BulkResult × List Transaction :=
  match body with
  | none => (.emptyBatch, db)
  | some rows =>
    if rows.length == 0 then (.emptyBatch, db)
    else
      (.allCreated ((bulkValid u now idGen rows).map toStored),
       db ++ (bulkValid u now idGen rows).map toStored)

/-- The statistics response object. -/
structure Stats where
  totalIncome : Rat
  totalExpense : Rat
  incomeCount : Nat
  expenseCount : Nat
  netAmount : Rat
deriving DecidableEq

/-- Model of the `$group: { _id: '$type', total: { $sum }, count }` stage:
one entry per distinct `type` value among the matched documents. -/
def typeGroups (l : List Transaction) : List (String × Rat × Nat) :=
  ((l.map fun t => t.type).dedup).map fun ty =>
    (ty, ((l.filter fun t => t.type == ty).map fun t => t.amount).sum,
     (l.filter fun t => t.type == ty).length)

/-- The `stats.forEach` folding step (lines 334-342). -/
def applyGroup (r : Stats) (s : String × Rat × Nat) : Stats :=
  if s.1 == "income" then { r with totalIncome := s.2.1, incomeCount := s.2.2 }
  else if s.1 == "expense" then
    { r with totalExpense := s.2.1, expenseCount := s.2.2 }
  else r

/-- The documents the statistics aggregation matches: the caller's
records inside the optional month/year range. -/
def statsMatched (db : List Transaction) (u : String)
    (month year : Option Int) : List Transaction :=
  db.filter fun t =>
    t.userId == u && dateMatches (statsDateFilter month year) t.date

/-- `getStatistics` (controller lines 293-358): aggregate the caller's
matched documents by type, fold the groups into the zero-initialised
result, then set `netAmount := totalIncome - totalExpense`. -/
def getStatistics (db : List Transaction) (u : String)
    (month year : Option Int) : Stats :=
  let r := (typeGroups (statsMatched db u month year)).foldl applyGroup
    ⟨0, 0, 0, 0, 0⟩
  { r with netAmount := r.totalIncome - r.totalExpense }

end Khata

namespace Khata

/-- C3: for every list request, date scoping follows the mutually
exclusive precedence startDate+endDate, else month+year, else year, else
none; month/year parameters are ignored whenever both explicit range
endpoints are present (illustrated by the spec's scenario
startDate=2024-01-10, endDate=2024-01-20, month=2, year=2024, which
keeps Jan 15 and excludes Feb 15). -/
theorem C3_list_date_precedence :
    (∀ (s e : Int) (m y : Option Int),
        buildDateFilter (some s) (some e) m y = .range s e) ∧
    (∀ (sd ed : Option Int) (m y : Int), sd = none ∨ ed = none →
        buildDateFilter sd ed (some m) (some y)
          = .range (jsMakeDate y (m - 1) 1) (jsMakeDate y m 0)) ∧
    (∀ (sd ed : Option Int) (y : Int), sd = none ∨ ed = none →
        buildDateFilter sd ed none (some y)
          = .range (jsMakeDate y 0 1) (jsMakeDate y 11 31)) ∧
    (∀ (sd ed m : Option Int), sd = none ∨ ed = none →
        buildDateFilter sd ed m none = .noFilter) ∧
    (dateMatches
        (buildDateFilter (some (jsMakeDate 2024 0 10))
          (some (jsMakeDate 2024 0 20)) (some 2) (some 2024))
        (jsMakeDate 2024 0 15) = true ∧
      dateMatches
        (buildDateFilter (some (jsMakeDate 2024 0 10))
          (some (jsMakeDate 2024 0 20)) (some 2) (some 2024))
        (jsMakeDate 2024 1 15) = false) := by
  refine ⟨fun s e m y => rfl, ?_, ?_, ?_, by decide, by decide⟩
  · rintro sd ed m y (rfl | rfl)
    · cases ed <;> rfl
    · cases sd <;> rfl
  · rintro sd ed y (rfl | rfl)
    · cases ed <;> rfl
    · cases sd <;> rfl
  · rintro sd ed m (rfl | rfl)
    · cases ed <;> cases m <;> rfl
    · cases sd <;> cases m <;> rfl

/-- C3 witness: with no explicit range present, month=2/year=2024 yields
the February range. -/
theorem C3_list_date_precedence_witness :
    buildDateFilter none none (some 2) (some 2024)
      = .range (jsMakeDate 2024 1 1) (jsMakeDate 2024 2 0) :=
  C3_list_date_precedence.2.1 none none 2 2024 (Or.inl rfl)

end Khata

namespace Khata

/-- C4 counterexample: noon of Jan 31 2024 (a time on the last calendar
day of the month) does NOT match the month=1/year=2024 filter, in either
the list or the statistics variant, although Jan 31 lies between the
first and the last day of that month; the upper bound is midnight of the
last day, so later times on that day are excluded. -/
theorem C4_month_range_counterexample :
    (jsMakeDay 2024 0 1 ≤ jsMakeDay 2024 0 31
      ∧ jsMakeDay 2024 0 31 ≤ jsMakeDay 2024 1 0)
    ∧ dateMatches (buildDateFilter none none (some 1) (some 2024))
        (1440 * jsMakeDay 2024 0 31 + 720) = false
    ∧ dateMatches (statsDateFilter (some 1) (some 2024))
        (1440 * jsMakeDay 2024 0 31 + 720) = false := by
  refine ⟨by decide, by decide, by decide⟩

/-- C4 amended: the month+year (resp. year-only) filter of both the list
and the statistics operations is the inclusive timestamp range from
midnight of the first calendar day to midnight of the LAST calendar day:
a transaction at `1440*d + mo` minutes (day `d`, minute-of-day `mo`)
matches iff its day lies in the month/year and, when it is the last day,
the time is exactly midnight; times strictly after midnight on the last
day are excluded. -/
theorem C4_amended_day_boundaries (m y d mo : Int) (h0 : 0 ≤ mo)
    (h1 : mo < 1440) :
    (dateMatches (buildDateFilter none none (some m) (some y))
        (1440 * d + mo) = true
      ↔ jsMakeDay y (m - 1) 1 ≤ d
        ∧ (d < jsMakeDay y m 0 ∨ (d = jsMakeDay y m 0 ∧ mo = 0)))
    ∧ (dateMatches (buildDateFilter none none none (some y))
        (1440 * d + mo) = true
      ↔ jsMakeDay y 0 1 ≤ d
        ∧ (d < jsMakeDay y 11 31 ∨ (d = jsMakeDay y 11 31 ∧ mo = 0)))
    ∧ statsDateFilter (some m) (some y)
        = buildDateFilter none none (some m) (some y)
    ∧ statsDateFilter none (some y) = buildDateFilter none none none (some y) := by
  refine ⟨?_, ?_, rfl, rfl⟩
  · simp only [buildDateFilter, dateMatches, jsMakeDate, Bool.and_eq_true,
      decide_eq_true_eq]
    omega
  · simp only [buildDateFilter, dateMatches, jsMakeDate, Bool.and_eq_true,
      decide_eq_true_eq]
    omega

/-- C4 witness: midnight of Jan 15 2024 matches the January 2024 filter
(day 15 lies strictly before the last day of the month). -/
theorem C4_amended_day_boundaries_witness :
    dateMatches (buildDateFilter none none (some 1) (some 2024))
      (1440 * jsMakeDay 2024 0 15 + 0) = true :=
  ((C4_amended_day_boundaries 1 2024 (jsMakeDay 2024 0 15) 0 (by decide)
      (by decide)).1).mpr ⟨by decide, Or.inl (by decide)⟩

end Khata

namespace Khata

/-- C2: for update and delete, a syntactically invalid id yields the
InvalidId 400 before any lookup (the outcome is the same for every
database state), and a valid id with no record matching both the id and
the caller's userId yields NotFound with the database untouched — in
particular a record owned by a different user produces exactly the same
NotFound outcome as a record that never existed. -/
theorem C2_update_delete_id_resolution (db : List Transaction)
    (u id : String) (b : UpdateBody) :
    (isValidObjectId id = false →
      updateTransaction db u id b = (.invalidId, db)
        ∧ deleteTransaction db u id = (.invalidId, db))
    ∧ (isValidObjectId id = true →
      (∀ t ∈ db, ¬(t.id = id ∧ t.userId = u)) →
      updateTransaction db u id b = (.notFound, db)
        ∧ deleteTransaction db u id = (.notFound, db)) := by
  constructor
  · intro h
    constructor <;> simp [updateTransaction, deleteTransaction, h]
  · intro h hnone
    have hf : db.find? (fun t => t.id == id && t.userId == u) = none := by
      rw [List.find?_eq_none]
      intro t ht
      simp only [Bool.and_eq_true, beq_iff_eq]
      exact fun hc => hnone t ht hc
    constructor <;> simp [updateTransaction, deleteTransaction, h, hf]

/-- C2 witness: a malformed id is rejected by update and delete on a
database that does contain a record, without touching it; and for a
well-formed id absent from the database both operations answer
NotFound. -/
theorem C2_update_delete_id_resolution_witness :
    (updateTransaction
        [{ id := "507f1f77bcf86cd799439011", userId := "alice", date := 0,
           createdAt := 0, description := "a", category := "Other",
           type := "expense", amount := 5 }] ("alice") ("zz")
        ⟨none, none, none, none, none⟩
      = (.invalidId,
         [{ id := "507f1f77bcf86cd799439011", userId := "alice", date := 0,
            createdAt := 0, description := "a", category := "Other",
            type := "expense", amount := 5 }]))
    ∧ (deleteTransaction
        [{ id := "507f1f77bcf86cd799439011", userId := "alice", date := 0,
           createdAt := 0, description := "a", category := "Other",
           type := "expense", amount := 5 }] ("bob")
        ("507f1f77bcf86cd799439011")).1 = .notFound := by
  constructor
  · exact ((C2_update_delete_id_resolution _ ("alice") ("zz")
      ⟨none, none, none, none, none⟩).1 (by decide)).1
  · have h := ((C2_update_delete_id_resolution
      [{ id := "507f1f77bcf86cd799439011", userId := "alice", date := 0,
         createdAt := 0, description := "a", category := "Other",
         type := "expense", amount := 5 }] ("bob")
      ("507f1f77bcf86cd799439011") ⟨none, none, none, none, none⟩).2
      (by decide) (by decide)).2
    rw [h]

end Khata

namespace Khata

/-- When every non-amount field is valid, schema validation reduces to
the amount path's validators. -/
theorem schemaValidate_eq_amountErrors (r : RawTransaction)
    (h1 : r.userId ≠ "") (h2 : r.description ≠ "")
    (h3 : r.description.length ≤ 200)
    (h4 : categories.contains r.category = true) (h5 : r.category ≠ "")
    (h6 : r.type = "income" ∨ r.type = "expense") :
    schemaValidate r = amountErrors r.amount := by
  have ht : r.type ≠ "" := by rcases h6 with h | h <;> simp [h]
  have ht2 : (["income", "expense"] : List String).contains r.type = true := by
    rcases h6 with h | h <;> simp [h]
  have h4' : r.category ∈ categories := by simpa using h4
  simp [schemaValidate, h1, h2, h4', h5, h6, ht, ht2, Nat.not_lt.mpr h3]

end Khata

namespace Khata

/-- C5 counterexample: a create request with amount 0 (all other fields
valid) is answered by the controller's missing-required-fields 400, not
by an amount-rule error: JS `!amount` treats 0 as falsy, so the request
never reaches the amount checks. -/
theorem C5_amount_zero_counterexample :
    createTransaction ("alice") ("id1") 0
        { userId := none, date := none, description := some ("a"),
          category := some ("Other"), type := some ("expense"),
          amount := some (.fin 0) }
      = .missingFields
    ∧ CreateResult.missingFields ≠ CreateResult.invalidAmount
    ∧ ∀ errs, CreateResult.missingFields ≠ CreateResult.validationError errs :=
  ⟨by decide, by decide, fun errs h => by cases h⟩

/-- C5 amended: with all other fields valid, amount=0 and amount=NaN are
falsy and fail with the MissingField 400; amount=-1 and amount=-Infinity
fail the controller's `amount <= 0` check with InvalidAmount; a finite
amount of at least 0.01 passes validation and is persisted; a finite
amount in (0, 0.01) fails the schema's `min: 0.01` with the amount-rule
message; amount=+Infinity fails the schema's finite-positive validator. -/
theorem C5_amount_boundary (u newId : String) (now : Int)
    (uid : Option String) (dt : Option Int) (d c ty : String)
    (hu : u ≠ "") (hd0 : d ≠ "") (hd1 : jsTrim d ≠ "")
    (hd2 : (jsTrim d).length ≤ 200)
    (hc : categories.contains c = true) (hc0 : c ≠ "")
    (hty : ty = "income" ∨ ty = "expense") :
    (createTransaction u newId now
        { userId := uid, date := dt, description := some d,
          category := some c, type := some ty, amount := some (.fin 0) }
      = .missingFields)
    ∧ (createTransaction u newId now
        { userId := uid, date := dt, description := some d,
          category := some c, type := some ty, amount := some .nan }
      = .missingFields)
    ∧ (createTransaction u newId now
        { userId := uid, date := dt, description := some d,
          category := some c, type := some ty, amount := some (.fin (-1)) }
      = .invalidAmount)
    ∧ (createTransaction u newId now
        { userId := uid, date := dt, description := some d,
          category := some c, type := some ty, amount := some .negInf }
      = .invalidAmount)
    ∧ (createTransaction u newId now
        { userId := uid, date := dt, description := some d,
          category := some c, type := some ty, amount := some .posInf }
      = .validationError ["Amount must be a valid positive number"])
    ∧ (∀ q : Rat, ratCent ≤ q →
        createTransaction u newId now
          { userId := uid, date := dt, description := some d,
            category := some c, type := some ty, amount := some (.fin q) }
        = .created
            { id := newId, userId := u, date := dt.getD now, createdAt := now,
              description := jsTrim d, category := c, type := ty, amount := q })
    ∧ (∀ q : Rat, 0 < q → q < ratCent →
        createTransaction u newId now
          { userId := uid, date := dt, description := some d,
            category := some c, type := some ty, amount := some (.fin q) }
        = .validationError ["Amount must be greater than 0"]) := by
  have hty0 : ty ≠ "" := by rcases hty with h | h <;> simp [h]
  have hty2 : (["income", "expense"] : List String).contains ty = true := by
    rcases hty with h | h <;> simp [h]
  have hval : ∀ a : JSNum,
      schemaValidate
        { id := newId, userId := u, date := dt.getD now, createdAt := now,
          description := jsTrim d, category := c, type := ty, amount := a }
      = amountErrors a := fun a =>
    schemaValidate_eq_amountErrors _ hu hd1 hd2 hc hc0 hty
  refine ⟨?_, ?_, ?_, ?_, ?_, ?_, ?_⟩
  · simp [createTransaction, numTruthy]
  · simp [createTransaction, numTruthy]
  · simp [createTransaction, numTruthy, strTruthy, hd0, hc0, hty0, hty2,
      JSNum.le0, hty]
  · simp [createTransaction, numTruthy, strTruthy, hd0, hc0, hty0, hty2,
      JSNum.le0, hty]
  · simp [createTransaction, numTruthy, strTruthy, hd0, hc0, hty0, hty2,
      JSNum.le0, hval, amountErrors, hty]
  · intro q hq
    have hq0 : (0 : Rat) < q := lt_of_lt_of_le (by decide) hq
    have hqz : ¬(q = 0) := ne_of_gt hq0
    simp [createTransaction, numTruthy, strTruthy, hd0, hc0, hty0, hty2,
      JSNum.le0, hval, amountErrors, not_lt.mpr hq, not_le.mpr hq0, hqz,
      toStored, JSNum.toRat, hty]
  · intro q hq0 hq
    have hqz : ¬(q = 0) := ne_of_gt hq0
    simp [createTransaction, numTruthy, strTruthy, hd0, hc0, hty0, hty2,
      JSNum.le0, hval, amountErrors, hq, not_le.mpr hq0, hqz, hty]

/-- C5 witness: with concrete valid fields, amount -1 is rejected with
the InvalidAmount 400 and amount 0.01 is persisted. -/
theorem C5_amount_boundary_witness :
    (createTransaction ("alice") ("id1") 0
        { userId := none, date := none, description := some ("a"),
          category := some ("Other"), type := some ("expense"),
          amount := some (.fin (-1)) }
      = .invalidAmount)
    ∧ (createTransaction ("alice") ("id1") 0
        { userId := none, date := none, description := some ("a"),
          category := some ("Other"), type := some ("expense"),
          amount := some (.fin ratCent) }
      = .created
          { id := "id1", userId := "alice", date := 0, createdAt := 0,
            description := jsTrim ("a"), category := "Other",
            type := "expense", amount := ratCent }) := by
  have h := C5_amount_boundary ("alice") ("id1") 0 none none ("a") ("Other")
    ("expense") (by decide) (by decide) (by decide) (by decide) (by decide)
    (by decide) (Or.inr rfl)
  exact ⟨h.2.2.1, h.2.2.2.2.2.1 ratCent le_rfl⟩

end Khata

namespace Khata

/-- C6 counterexample: an update supplying type="food" (not a valid type)
against an owned record succeeds with 200 and leaves the stored type at
its old value, instead of failing: the inline guard silently drops the
invalid field. -/
theorem C6_invalid_type_update_counterexample :
    updateTransaction
        [{ id := "507f1f77bcf86cd799439011", userId := "alice", date := 0,
           createdAt := 0, description := "a", category := "Other",
           type := "expense", amount := 5 }]
        ("alice") ("507f1f77bcf86cd799439011")
        { date := none, description := none, category := none,
          type := some ("food"), amount := none }
      = (.ok
          { id := "507f1f77bcf86cd799439011", userId := "alice", date := 0,
            createdAt := 0, description := "a", category := "Other",
            type := "expense", amount := 5 },
         [{ id := "507f1f77bcf86cd799439011", userId := "alice", date := 0,
            createdAt := 0, description := "a", category := "Other",
            type := "expense", amount := 5 }]) := by decide

/-- C6 amended: on update, a supplied description or category is indeed
re-validated by the schema on save and an invalid value fails the update
with the field's message (database unchanged); but a supplied type
outside income/expense, or a supplied falsy or non-positive amount, is
silently dropped by the inline guard and the update succeeds with the
old value; omitted fields are left unchanged and unvalidated. -/
theorem C6_update_field_validation (db : List Transaction) (u id : String)
    (t₀ : Transaction) (hid : isValidObjectId id = true)
    (hfind : db.find? (fun t => t.id == id && t.userId == u) = some t₀)
    (h1 : t₀.userId ≠ "") (h2 : t₀.description ≠ "")
    (h3 : t₀.description.length ≤ 200)
    (h4 : categories.contains t₀.category = true) (h5 : t₀.category ≠ "")
    (h6 : t₀.type = "income" ∨ t₀.type = "expense")
    (h7 : ratCent ≤ t₀.amount) :
    (∀ s : String, s ≠ "" → jsTrim s = "" →
      updateTransaction db u id
          { date := none, description := some s, category := none,
            type := none, amount := none }
        = (.validationError ["Description is required"], db))
    ∧ (∀ s : String, s ≠ "" → 200 < (jsTrim s).length →
      updateTransaction db u id
          { date := none, description := some s, category := none,
            type := none, amount := none }
        = (.validationError ["Description cannot exceed 200 characters"], db))
    ∧ (∀ c : String, c ≠ "" → categories.contains c = false →
      updateTransaction db u id
          { date := none, description := none, category := some c,
            type := none, amount := none }
        = (.validationError ["category is not a valid enum value"], db))
    ∧ (∀ ty : String, ty ≠ "income" → ty ≠ "expense" →
      updateTransaction db u id
          { date := none, description := none, category := none,
            type := some ty, amount := none }
        = (.ok t₀,
           replaceFirst (fun x => x.id == id && x.userId == u) t₀ db))
    ∧ (∀ a : JSNum, numTruthy (some a) = false ∨ a.gt0 = false →
      updateTransaction db u id
          { date := none, description := none, category := none,
            type := none, amount := some a }
        = (.ok t₀,
           replaceFirst (fun x => x.id == id && x.userId == u) t₀ db))
    ∧ (updateTransaction db u id
          { date := none, description := none, category := none,
            type := none, amount := none }
        = (.ok t₀,
           replaceFirst (fun x => x.id == id && x.userId == u) t₀ db)) := by
  have hty0 : t₀.type ≠ "" := by rcases h6 with h | h <;> simp [h]
  have h4' : t₀.category ∈ categories := by simpa using h4
  have hval0 : schemaValidate t₀.toRaw = [] := by
    have := schemaValidate_eq_amountErrors t₀.toRaw h1 h2 h3 h4 h5 h6
    rw [this]
    simp [Transaction.toRaw, amountErrors, not_lt.mpr h7]
  have hroundtrip : toStored t₀.toRaw = t₀ := rfl
  refine ⟨?_, ?_, ?_, ?_, ?_, ?_⟩
  · intro s hs0 hs1
    have hr : applyUpdates t₀
        { date := none, description := some s, category := none,
          type := none, amount := none }
        = { t₀.toRaw with description := jsTrim s } := by
      simp [applyUpdates, strTruthy, numTruthy, hs0]
    have hsv : schemaValidate { t₀.toRaw with description := jsTrim s }
        = ["Description is required"] := by
      simp [schemaValidate, Transaction.toRaw, h1, hs1, h4', h5, h6, hty0,
        amountErrors, not_lt.mpr h7]
    simp [updateTransaction, hid, hfind, hr, hsv]
  · intro s hs0 hs1
    have hr : applyUpdates t₀
        { date := none, description := some s, category := none,
          type := none, amount := none }
        = { t₀.toRaw with description := jsTrim s } := by
      simp [applyUpdates, strTruthy, numTruthy, hs0]
    have hs2 : jsTrim s ≠ "" := by
      intro h
      rw [h] at hs1
      simp at hs1
    have hsv : schemaValidate { t₀.toRaw with description := jsTrim s }
        = ["Description cannot exceed 200 characters"] := by
      simp [schemaValidate, Transaction.toRaw, h1, hs1, hs2, h4', h5, h6, hty0,
        amountErrors, not_lt.mpr h7]
    simp [updateTransaction, hid, hfind, hr, hsv]
  · intro c hc0 hc1
    have hr : applyUpdates t₀
        { date := none, description := none, category := some c,
          type := none, amount := none }
        = { t₀.toRaw with category := c } := by
      simp [applyUpdates, strTruthy, numTruthy, hc0]
    have hc2 : ¬(c ∈ categories) := by simpa using hc1
    have hsv : schemaValidate { t₀.toRaw with category := c }
        = ["category is not a valid enum value"] := by
      simp [schemaValidate, Transaction.toRaw, h1, h2, h6, hty0, hc0, hc2,
        amountErrors, not_lt.mpr h7, Nat.not_lt.mpr h3]
    simp [updateTransaction, hid, hfind, hr, hsv]
  · intro ty hty1 hty2
    have hr : applyUpdates t₀
        { date := none, description := none, category := none,
          type := some ty, amount := none }
        = t₀.toRaw := by
      simp [applyUpdates, strTruthy, numTruthy, hty1, hty2]
    simp [updateTransaction, hid, hfind, hr, hval0, hroundtrip]
  · intro a ha
    have hr : applyUpdates t₀
        { date := none, description := none, category := none,
          type := none, amount := some a }
        = t₀.toRaw := by
      rcases ha with h | h
      · simp [applyUpdates, strTruthy, h]
      · simp [applyUpdates, strTruthy, h]
    simp [updateTransaction, hid, hfind, hr, hval0, hroundtrip]
  · have hr : applyUpdates t₀
        { date := none, description := none, category := none,
          type := none, amount := none }
        = t₀.toRaw := by
      simp [applyUpdates, strTruthy, numTruthy]
    simp [updateTransaction, hid, hfind, hr, hval0, hroundtrip]

/-- C6 witness: on a concrete owned record, an update supplying a
whitespace-only description fails with the required-description message,
while an update supplying amount 0 succeeds unchanged. -/
theorem C6_update_field_validation_witness :
    (updateTransaction
        [{ id := "507f1f77bcf86cd799439011", userId := "alice", date := 0,
           createdAt := 0, description := "a", category := "Other",
           type := "expense", amount := 5 }]
        ("alice") ("507f1f77bcf86cd799439011")
        { date := none, description := some (" "), category := none,
          type := none, amount := none }
      = (.validationError ["Description is required"],
         [{ id := "507f1f77bcf86cd799439011", userId := "alice", date := 0,
            createdAt := 0, description := "a", category := "Other",
            type := "expense", amount := 5 }]))
    ∧ (updateTransaction
        [{ id := "507f1f77bcf86cd799439011", userId := "alice", date := 0,
           createdAt := 0, description := "a", category := "Other",
           type := "expense", amount := 5 }]
        ("alice") ("507f1f77bcf86cd799439011")
        { date := none, description := none, category := none,
          type := none, amount := some (.fin 0) }).1
      = .ok
          { id := "507f1f77bcf86cd799439011", userId := "alice", date := 0,
            createdAt := 0, description := "a", category := "Other",
            type := "expense", amount := 5 } := by
  have h := C6_update_field_validation
    [{ id := "507f1f77bcf86cd799439011", userId := "alice", date := 0,
       createdAt := 0, description := "a", category := "Other",
       type := "expense", amount := 5 }]
    ("alice") ("507f1f77bcf86cd799439011")
    { id := "507f1f77bcf86cd799439011", userId := "alice", date := 0,
      createdAt := 0, description := "a", category := "Other",
      type := "expense", amount := 5 }
    (by decide) (by decide) (by decide) (by decide) (by decide) (by decide)
    (by decide) (Or.inr rfl) (by decide)
  refine ⟨?_, ?_⟩
  · exact h.1 (" ") (by decide) (by decide)
  · rw [h.2.2.2.2.1 (.fin 0) (Or.inl (by decide))]

end Khata

namespace Khata

/-- Field-by-field characterisation of the update's guarded field
application. -/
theorem applyUpdates_eq (t : Transaction) (b : UpdateBody) :
    applyUpdates t b =
      { id := t.id, userId := t.userId,
        date := match b.date with | some d => d | none => t.date,
        createdAt := t.createdAt,
        description := if strTruthy b.description then
            jsTrim (b.description.getD (""))
          else t.description,
        category := if strTruthy b.category then b.category.getD ("")
          else t.category,
        type := if strTruthy b.type
            && (["income", "expense"] : List String).contains (b.type.getD (""))
          then b.type.getD ("") else t.type,
        amount := if numTruthy b.amount && (b.amount.getD .nan).gt0 then
            b.amount.getD .nan
          else .fin t.amount } := by
  rcases b with ⟨bd, bde, bc, bt, ba⟩
  cases bd <;> simp only [applyUpdates, Transaction.toRaw] <;> split_ifs <;>
    rfl

/-- C10: on update, a supplied field that is falsy (amount 0, NaN or an
empty-string description/category) or that fails its inline guard (type
outside income/expense, amount not > 0) is silently skipped — the saved
record keeps the old value for that field, every other supplied valid
field is still applied, the owner never changes, and the operation
reports success; in particular an update can never clear a field or set
the amount to 0 or below. -/
theorem C10_update_silent_skip (db : List Transaction) (u id : String)
    (b : UpdateBody) (t₀ : Transaction)
    (hid : isValidObjectId id = true)
    (hfind : db.find? (fun t => t.id == id && t.userId == u) = some t₀)
    (hvalid : schemaValidate (applyUpdates t₀ b) = []) :
    updateTransaction db u id b
        = (.ok (toStored (applyUpdates t₀ b)),
           replaceFirst (fun x => x.id == id && x.userId == u)
             (toStored (applyUpdates t₀ b)) db)
    ∧ (toStored (applyUpdates t₀ b)).userId = t₀.userId
    ∧ (strTruthy b.type = false
        ∨ (["income", "expense"] : List String).contains (b.type.getD (""))
            = false →
        (toStored (applyUpdates t₀ b)).type = t₀.type)
    ∧ (strTruthy b.type = true
        → (["income", "expense"] : List String).contains (b.type.getD (""))
            = true →
        (toStored (applyUpdates t₀ b)).type = b.type.getD (""))
    ∧ (numTruthy b.amount = false ∨ (b.amount.getD .nan).gt0 = false →
        (toStored (applyUpdates t₀ b)).amount = t₀.amount)
    ∧ (numTruthy b.amount = true → (b.amount.getD .nan).gt0 = true →
        (toStored (applyUpdates t₀ b)).amount = (b.amount.getD .nan).toRat)
    ∧ (strTruthy b.description = false →
        (toStored (applyUpdates t₀ b)).description = t₀.description)
    ∧ (strTruthy b.description = true →
        (toStored (applyUpdates t₀ b)).description
          = jsTrim (b.description.getD ("")))
    ∧ (strTruthy b.category = false →
        (toStored (applyUpdates t₀ b)).category = t₀.category)
    ∧ (b.date = none → (toStored (applyUpdates t₀ b)).date = t₀.date)
    ∧ (0 < t₀.amount → 0 < (toStored (applyUpdates t₀ b)).amount) := by
  have hmain : updateTransaction db u id b
      = (.ok (toStored (applyUpdates t₀ b)),
         replaceFirst (fun x => x.id == id && x.userId == u)
           (toStored (applyUpdates t₀ b)) db) := by
    simp [updateTransaction, hid, hfind, hvalid]
  have hamtskip : numTruthy b.amount = false ∨ (b.amount.getD .nan).gt0 = false →
      (toStored (applyUpdates t₀ b)).amount = t₀.amount := by
    intro h
    rcases h with h | h <;> simp [toStored, applyUpdates_eq, h, JSNum.toRat]
  refine ⟨hmain, by simp [toStored, applyUpdates_eq], ?_, ?_, hamtskip, ?_,
    ?_, ?_, ?_, ?_, ?_⟩
  · intro h
    rcases h with h | h
    · simp [toStored, applyUpdates_eq, h]
    · have ha : b.type.getD ("") ≠ "income" ∧ b.type.getD ("") ≠ "expense" := by
        simpa [not_or] using h
      simp [toStored, applyUpdates_eq, ha.1, ha.2]
  · intro h1 h2
    have h2' : b.type.getD ("") = "income" ∨ b.type.getD ("") = "expense" := by
      simpa using h2
    rcases h2' with h | h <;> simp [toStored, applyUpdates_eq, h1, h]
  · intro h1 h2
    simp [toStored, applyUpdates_eq, h1, h2]
  · intro h
    simp [toStored, applyUpdates_eq, h]
  · intro h
    simp [toStored, applyUpdates_eq, h]
  · intro h
    simp [toStored, applyUpdates_eq, h]
  · intro h
    simp [toStored, applyUpdates_eq, h]
  · intro h
    by_cases hg1 : numTruthy b.amount = true
    · by_cases hg2 : (b.amount.getD .nan).gt0 = true
      · have ha : (toStored (applyUpdates t₀ b)).amount
            = (b.amount.getD .nan).toRat := by
          simp [toStored, applyUpdates_eq, hg1, hg2]
        rw [ha]
        rcases hb : b.amount.getD .nan with _ | _ | _ | q
        · rw [hb] at hg2
          simp [JSNum.gt0] at hg2
        · exfalso
          have hamt : (applyUpdates t₀ b).amount = .posInf := by
            rw [applyUpdates_eq]
            simp [hg1, hg2, hb, JSNum.gt0]
          have hv := hvalid
          simp only [schemaValidate, List.append_eq_nil] at hv
          have hlast := hv.2
          rw [hamt] at hlast
          simp [amountErrors] at hlast
        · rw [hb] at hg2
          simp [JSNum.gt0] at hg2
        · rw [hb] at hg2
          simp only [JSNum.gt0, decide_eq_true_eq] at hg2
          simpa [JSNum.toRat] using hg2
      · rw [hamtskip (Or.inr (by simpa using hg2))]
        exact h
    · rw [hamtskip (Or.inl (by simpa using hg1))]
      exact h

/-- C10 witness: on a concrete owned record, an update supplying
amount 0 together with a valid description change applies the
description, keeps the old amount, and reports success. -/
theorem C10_update_silent_skip_witness :
    updateTransaction
        [{ id := "507f1f77bcf86cd799439011", userId := "alice", date := 0,
           createdAt := 0, description := "a", category := "Other",
           type := "expense", amount := 5 }]
        ("alice") ("507f1f77bcf86cd799439011")
        { date := none, description := some ("b"), category := none,
          type := none, amount := some (.fin 0) }
      = (.ok
          { id := "507f1f77bcf86cd799439011", userId := "alice", date := 0,
            createdAt := 0, description := "b", category := "Other",
            type := "expense", amount := 5 },
         [{ id := "507f1f77bcf86cd799439011", userId := "alice", date := 0,
            createdAt := 0, description := "b", category := "Other",
            type := "expense", amount := 5 }]) := by
  have h := C10_update_silent_skip
    [{ id := "507f1f77bcf86cd799439011", userId := "alice", date := 0,
       createdAt := 0, description := "a", category := "Other",
       type := "expense", amount := 5 }]
    ("alice") ("507f1f77bcf86cd799439011")
    { date := none, description := some ("b"), category := none,
      type := none, amount := some (.fin 0) }
    { id := "507f1f77bcf86cd799439011", userId := "alice", date := 0,
      createdAt := 0, description := "a", category := "Other",
      type := "expense", amount := 5 }
    (by decide) (by decide) (by decide)
  rw [h.1]
  rfl

end Khata

namespace Khata

/-- C9 is a code bug: the EmptyBatch fast-fail holds, every valid record
is persisted and an invalid row does not block the others, but a
validation failure is silently dropped instead of producing the claimed
207 — every non-empty batch is answered by the 201 success path listing
only the inserted records, and no reachable outcome is the
partial-failure (`mixed`) response; in particular the claim's own
example, a row with amount -5 next to a valid row, yields the plain
success outcome with one record, not `failed: 1, created: N-1`. -/
theorem C9_bulk_silent_skip (db : List Transaction) (u : String)
    (now : Int) (idGen : Nat → String) :
    bulkCreateTransactions db u now idGen none = (.emptyBatch, db)
    ∧ bulkCreateTransactions db u now idGen (some []) = (.emptyBatch, db)
    ∧ (∀ rows : List BulkRow, rows ≠ [] →
        bulkCreateTransactions db u now idGen (some rows)
          = (.allCreated ((bulkValid u now idGen rows).map toStored),
             db ++ (bulkValid u now idGen rows).map toStored))
    ∧ (∀ (body : Option (List BulkRow)) (res : BulkResult)
        (db' : List Transaction),
        bulkCreateTransactions db u now idGen body = (res, db') →
        ∀ (c f : Nat) (e : List (List String)), res ≠ .mixed c f e)
    ∧ bulkCreateTransactions [] ("alice") 0 (fun _ => "x")
        (some
          [{ userId := none, date := none, description := some ("a"),
             category := some ("Other"), type := some ("expense"),
             amount := some (.fin 5) },
           { userId := none, date := none, description := some ("b"),
             category := some ("Other"), type := some ("expense"),
             amount := some (.fin (-5)) }])
        = (.allCreated
            [{ id := "x", userId := "alice", date := 0, createdAt := 0,
               description := "a", category := "Other", type := "expense",
               amount := 5 }],
           [{ id := "x", userId := "alice", date := 0, createdAt := 0,
              description := "a", category := "Other", type := "expense",
              amount := 5 }]) := by
  refine ⟨rfl, rfl, ?_, ?_, by decide⟩
  · intro rows hne
    have hlz : ¬(rows.length == 0) = true := by
      simpa using fun h => hne (List.length_eq_zero.mp h)
    simp [bulkCreateTransactions, hlz]
  · intro body res db' h c f e
    rcases body with _ | rows
    · rw [bulkCreateTransactions] at h
      cases h
      simp
    · rw [bulkCreateTransactions] at h
      split at h <;> cases h <;> simp

/-- C9 witness: a one-row batch whose only row is invalid is still
answered by the 201 success path — with an empty created list and
nothing persisted — rather than by any failure report. -/
theorem C9_bulk_silent_skip_witness :
    bulkCreateTransactions [] ("alice") 0 (fun _ => "x")
        (some [⟨none, none, none, none, none, none⟩])
      = (.allCreated [], []) := by
  have h := (C9_bulk_silent_skip [] ("alice") 0 (fun _ => "x")).2.2.1
    [⟨none, none, none, none, none, none⟩] (by simp)
  rw [h]
  rfl

end Khata

namespace Khata

/-- Folding groups none of which is the income group leaves the income
fields of the accumulator untouched. -/
theorem foldl_applyGroup_no_income (l : List (String × Rat × Nat))
    (r : Stats) (h : ∀ p ∈ l, p.1 ≠ "income") :
    (l.foldl applyGroup r).totalIncome = r.totalIncome
    ∧ (l.foldl applyGroup r).incomeCount = r.incomeCount := by
  induction l generalizing r with
  | nil => exact ⟨rfl, rfl⟩
  | cons a t ih =>
    have ha := h a (List.mem_cons_self a t)
    have ht : ∀ p ∈ t, p.1 ≠ "income" := fun p hp =>
      h p (List.mem_cons_of_mem a hp)
    have hfix : (applyGroup r a).totalIncome = r.totalIncome
        ∧ (applyGroup r a).incomeCount = r.incomeCount := by
      simp only [applyGroup]
      rw [if_neg (by simpa using ha)]
      split <;> exact ⟨rfl, rfl⟩
    rcases ih (applyGroup r a) ht with ⟨i1, i2⟩
    exact ⟨by rw [List.foldl_cons, i1, hfix.1],
      by rw [List.foldl_cons, i2, hfix.2]⟩

/-- Folding groups none of which is the expense group leaves the expense
fields of the accumulator untouched. -/
theorem foldl_applyGroup_no_expense (l : List (String × Rat × Nat))
    (r : Stats) (h : ∀ p ∈ l, p.1 ≠ "expense") :
    (l.foldl applyGroup r).totalExpense = r.totalExpense
    ∧ (l.foldl applyGroup r).expenseCount = r.expenseCount := by
  induction l generalizing r with
  | nil => exact ⟨rfl, rfl⟩
  | cons a t ih =>
    have ha := h a (List.mem_cons_self a t)
    have ht : ∀ p ∈ t, p.1 ≠ "expense" := fun p hp =>
      h p (List.mem_cons_of_mem a hp)
    have hfix : (applyGroup r a).totalExpense = r.totalExpense
        ∧ (applyGroup r a).expenseCount = r.expenseCount := by
      simp only [applyGroup]
      split
      · exact ⟨rfl, rfl⟩
      · rw [if_neg (by simpa using ha)]
        exact ⟨rfl, rfl⟩
    rcases ih (applyGroup r a) ht with ⟨i1, i2⟩
    exact ⟨by rw [List.foldl_cons, i1, hfix.1],
      by rw [List.foldl_cons, i2, hfix.2]⟩

/-- If every income group carries total `A` and count `B` and at least
one income group is present, the fold ends with income fields `A`/`B`. -/
theorem foldl_applyGroup_income (l : List (String × Rat × Nat)) (r : Stats)
    (A : Rat) (B : Nat)
    (hall : ∀ p ∈ l, p.1 = "income" → p.2.1 = A ∧ p.2.2 = B)
    (hmem : ∃ p ∈ l, p.1 = "income") :
    (l.foldl applyGroup r).totalIncome = A
    ∧ (l.foldl applyGroup r).incomeCount = B := by
  induction l generalizing r with
  | nil =>
    rcases hmem with ⟨p, hp, _⟩
    cases hp
  | cons a t ih =>
    by_cases hin : ∃ p ∈ t, p.1 = "income"
    · exact ih (applyGroup r a)
        (fun p hp => hall p (List.mem_cons_of_mem a hp)) hin
    · rcases hmem with ⟨p, hp, hpin⟩
      rcases List.mem_cons.mp hp with rfl | hpt
      · have ha := hall p (List.mem_cons_self p t) hpin
        have hstep : (applyGroup r p).totalIncome = A
            ∧ (applyGroup r p).incomeCount = B := by
          simp [applyGroup, hpin, ha.1, ha.2]
        have ht : ∀ q ∈ t, q.1 ≠ "income" := fun q hq hq1 =>
          hin ⟨q, hq, hq1⟩
        have hrest := foldl_applyGroup_no_income t (applyGroup r p) ht
        exact ⟨by rw [List.foldl_cons, hrest.1, hstep.1],
          by rw [List.foldl_cons, hrest.2, hstep.2]⟩
      · exact absurd ⟨p, hpt, hpin⟩ hin

/-- If every expense group carries total `A` and count `B` and at least
one expense group is present, the fold ends with expense fields `A`/`B`. -/
theorem foldl_applyGroup_expense (l : List (String × Rat × Nat)) (r : Stats)
    (A : Rat) (B : Nat)
    (hall : ∀ p ∈ l, p.1 = "expense" → p.2.1 = A ∧ p.2.2 = B)
    (hmem : ∃ p ∈ l, p.1 = "expense") :
    (l.foldl applyGroup r).totalExpense = A
    ∧ (l.foldl applyGroup r).expenseCount = B := by
  induction l generalizing r with
  | nil =>
    rcases hmem with ⟨p, hp, _⟩
    cases hp
  | cons a t ih =>
    by_cases hin : ∃ p ∈ t, p.1 = "expense"
    · exact ih (applyGroup r a)
        (fun p hp => hall p (List.mem_cons_of_mem a hp)) hin
    · rcases hmem with ⟨p, hp, hpin⟩
      rcases List.mem_cons.mp hp with rfl | hpt
      · have ha := hall p (List.mem_cons_self p t) hpin
        have hstep : (applyGroup r p).totalExpense = A
            ∧ (applyGroup r p).expenseCount = B := by
          simp [applyGroup, hpin, ha.1, ha.2]
        have ht : ∀ q ∈ t, q.1 ≠ "expense" := fun q hq hq1 =>
          hin ⟨q, hq, hq1⟩
        have hrest := foldl_applyGroup_no_expense t (applyGroup r p) ht
        exact ⟨by rw [List.foldl_cons, hrest.1, hstep.1],
          by rw [List.foldl_cons, hrest.2, hstep.2]⟩
      · exact absurd ⟨p, hpt, hpin⟩ hin

/-- Every group of `typeGroups l` keyed `s` carries the sum and count of
the documents of type `s`. -/
theorem typeGroups_entry (l : List Transaction) (s : String) :
    ∀ p ∈ typeGroups l, p.1 = s →
      p.2.1 = ((l.filter fun t => t.type == s).map fun t => t.amount).sum
      ∧ p.2.2 = (l.filter fun t => t.type == s).length := by
  intro p hp hps
  rcases List.mem_map.mp hp with ⟨ty, _, rfl⟩
  have : ty = s := hps
  subst this
  exact ⟨rfl, rfl⟩

/-- A group keyed `s` is present exactly when some matched document has
type `s`. -/
theorem typeGroups_key_mem (l : List Transaction) (s : String) :
    (∃ p ∈ typeGroups l, p.1 = s) ↔ ∃ t ∈ l, t.type = s := by
  constructor
  · rintro ⟨p, hp, hps⟩
    rcases List.mem_map.mp hp with ⟨ty, hty, rfl⟩
    rcases List.mem_map.mp (List.mem_dedup.mp hty) with ⟨t, ht, rfl⟩
    exact ⟨t, ht, hps⟩
  · rintro ⟨t, ht, hts⟩
    refine ⟨(s,
      ((l.filter fun x => x.type == s).map fun x => x.amount).sum,
      (l.filter fun x => x.type == s).length), ?_, rfl⟩
    refine List.mem_map.mpr ⟨s, ?_, rfl⟩
    exact List.mem_dedup.mpr (List.mem_map.mpr ⟨t, ht, hts⟩)

end Khata

namespace Khata

/-- C8: every statistics result satisfies
netAmount = totalIncome - totalExpense; totalIncome/incomeCount are the
sum and count of the caller's income transactions in range,
totalExpense/expenseCount likewise for expense (each pair 0/0 when its
type group is absent); and with no matched transactions all five fields
are 0. -/
theorem C8_statistics (db : List Transaction) (u : String)
    (month year : Option Int) :
    (getStatistics db u month year).netAmount
        = (getStatistics db u month year).totalIncome
          - (getStatistics db u month year).totalExpense
    ∧ (getStatistics db u month year).totalIncome
        = (((statsMatched db u month year).filter
            fun t => t.type == "income").map fun t => t.amount).sum
    ∧ (getStatistics db u month year).incomeCount
        = ((statsMatched db u month year).filter
            fun t => t.type == "income").length
    ∧ (getStatistics db u month year).totalExpense
        = (((statsMatched db u month year).filter
            fun t => t.type == "expense").map fun t => t.amount).sum
    ∧ (getStatistics db u month year).expenseCount
        = ((statsMatched db u month year).filter
            fun t => t.type == "expense").length
    ∧ (statsMatched db u month year = [] →
        getStatistics db u month year = ⟨0, 0, 0, 0, 0⟩) := by
  have hinc : (getStatistics db u month year).totalIncome
        = (((statsMatched db u month year).filter
            fun t => t.type == "income").map fun t => t.amount).sum
      ∧ (getStatistics db u month year).incomeCount
        = ((statsMatched db u month year).filter
            fun t => t.type == "income").length := by
    by_cases hex : ∃ t ∈ statsMatched db u month year, t.type = "income"
    · have h := foldl_applyGroup_income
        (typeGroups (statsMatched db u month year)) ⟨0, 0, 0, 0, 0⟩
        (((statsMatched db u month year).filter
            fun t => t.type == "income").map fun t => t.amount).sum
        (((statsMatched db u month year).filter
            fun t => t.type == "income").length)
        (typeGroups_entry (statsMatched db u month year) ("income"))
        ((typeGroups_key_mem (statsMatched db u month year) ("income")).mpr hex)
      exact ⟨h.1, h.2⟩
    · have hno : ∀ p ∈ typeGroups (statsMatched db u month year),
          p.1 ≠ "income" := fun p hp hps =>
        hex ((typeGroups_key_mem (statsMatched db u month year)
          ("income")).mp ⟨p, hp, hps⟩)
      have h := foldl_applyGroup_no_income
        (typeGroups (statsMatched db u month year)) ⟨0, 0, 0, 0, 0⟩ hno
      have hnil : (statsMatched db u month year).filter
          (fun t => t.type == "income") = [] := by
        rw [List.filter_eq_nil_iff]
        intro t ht hts
        exact hex ⟨t, ht, by simpa using hts⟩
      rw [hnil]
      exact ⟨by rw [getStatistics] at *; exact h.1,
        by rw [getStatistics] at *; exact h.2⟩
  have hexp : (getStatistics db u month year).totalExpense
        = (((statsMatched db u month year).filter
            fun t => t.type == "expense").map fun t => t.amount).sum
      ∧ (getStatistics db u month year).expenseCount
        = ((statsMatched db u month year).filter
            fun t => t.type == "expense").length := by
    by_cases hex : ∃ t ∈ statsMatched db u month year, t.type = "expense"
    · have h := foldl_applyGroup_expense
        (typeGroups (statsMatched db u month year)) ⟨0, 0, 0, 0, 0⟩
        (((statsMatched db u month year).filter
            fun t => t.type == "expense").map fun t => t.amount).sum
        (((statsMatched db u month year).filter
            fun t => t.type == "expense").length)
        (typeGroups_entry (statsMatched db u month year) ("expense"))
        ((typeGroups_key_mem (statsMatched db u month year)
          ("expense")).mpr hex)
      exact ⟨h.1, h.2⟩
    · have hno : ∀ p ∈ typeGroups (statsMatched db u month year),
          p.1 ≠ "expense" := fun p hp hps =>
        hex ((typeGroups_key_mem (statsMatched db u month year)
          ("expense")).mp ⟨p, hp, hps⟩)
      have h := foldl_applyGroup_no_expense
        (typeGroups (statsMatched db u month year)) ⟨0, 0, 0, 0, 0⟩ hno
      have hnil : (statsMatched db u month year).filter
          (fun t => t.type == "expense") = [] := by
        rw [List.filter_eq_nil_iff]
        intro t ht hts
        exact hex ⟨t, ht, by simpa using hts⟩
      rw [hnil]
      exact ⟨by rw [getStatistics] at *; exact h.1,
        by rw [getStatistics] at *; exact h.2⟩
  refine ⟨rfl, hinc.1, hinc.2, hexp.1, hexp.2, ?_⟩
  · intro h
    simp [getStatistics, typeGroups, h]

/-- C8 witness: on the empty database with no date scope, every
statistics field is zero. -/
theorem C8_statistics_witness :
    getStatistics [] ("alice") none none = ⟨0, 0, 0, 0, 0⟩ :=
  (C8_statistics [] ("alice") none none).2.2.2.2.2 rfl

end Khata

namespace Khata

/-- The kernel-reducible `jsMathCeil` agrees with the mathematical
ceiling. -/
theorem jsMathCeil_eq_ceil (x : Rat) : jsMathCeil x = ⌈x⌉ := by
  rw [jsMathCeil, show ((⌈x⌉ : Int)) = -⌊-x⌋ by
      rw [Int.floor_neg]
      omega,
    Rat.floor_def, Int.fdiv_eq_ediv _ (by positivity)]

/-- Ceiling of a natural count divided by a positive integer limit, as
integer arithmetic. -/
theorem ceil_natCast_div (a : Nat) (l : Int) (hl : 1 ≤ l) :
    ⌈(a : Rat) / (l : Rat)⌉ = ((a : Int) + l - 1) / l := by
  have hl0 : (0 : Rat) < (l : Rat) := by exact_mod_cast hl
  rw [Int.ceil_eq_iff]
  have h := Int.ediv_add_emod ((a : Int) + l - 1) l
  have h2 := Int.emod_nonneg ((a : Int) + l - 1) (by omega : l ≠ 0)
  have h3 := Int.emod_lt_of_pos ((a : Int) + l - 1) (by omega : 0 < l)
  constructor
  · rw [lt_div_iff₀ hl0]
    have : ((((a : Int) + l - 1) / l - 1) * l : Int) < (a : Int) := by nlinarith
    exact_mod_cast this
  · rw [div_le_iff₀ hl0]
    have : (a : Int) ≤ (((a : Int) + l - 1) / l) * l := by nlinarith
    exact_mod_cast this

/-- C7: for a list request with page `p ≥ 1` and limit `l ≥ 1`, the
returned window is exactly the slice of the sorted matching set starting
at offset `(p-1)*l`, holds at most `l` records, and the pagination block
reports the full matching count together with
`totalPages = ceil(total/limit)` (equivalently `(total+l-1)/l`); with 25
matches and limit 10, page 3 returns exactly the remaining 5 records. -/
theorem C7_pagination (db : List Transaction) (u : String)
    (ty cat : Option String) (sd ed m y : Option Int) (p l : Int)
    (hp : 1 ≤ p) (hl : 1 ≤ l) :
    (getTransactions db u ⟨some p, some l, ty, cat, sd, ed, m, y⟩).transactions
        = (((db.filter
              (txMatches u ⟨some p, some l, ty, cat, sd, ed, m, y⟩)).mergeSort
            txLe).drop ((p - 1) * l).toNat).take l.toNat
    ∧ (getTransactions db u
        ⟨some p, some l, ty, cat, sd, ed, m, y⟩).transactions.length ≤ l.toNat
    ∧ (getTransactions db u
        ⟨some p, some l, ty, cat, sd, ed, m, y⟩).pagination.totalTransactions
        = (db.filter (txMatches u ⟨some p, some l, ty, cat, sd, ed, m, y⟩)).length
    ∧ (getTransactions db u
        ⟨some p, some l, ty, cat, sd, ed, m, y⟩).pagination.totalPages
        = (((db.filter
            (txMatches u ⟨some p, some l, ty, cat, sd, ed, m, y⟩)).length : Int)
          + l - 1) / l
    ∧ ((db.filter (txMatches u ⟨some p, some l, ty, cat, sd, ed, m, y⟩)).length
          = 25 → l = 10 → p = 3 →
        (getTransactions db u
          ⟨some p, some l, ty, cat, sd, ed, m, y⟩).transactions.length = 5) := by
  have htx : (getTransactions db u
      ⟨some p, some l, ty, cat, sd, ed, m, y⟩).transactions
      = (((db.filter
            (txMatches u ⟨some p, some l, ty, cat, sd, ed, m, y⟩)).mergeSort
          txLe).drop ((p - 1) * l).toNat).take l.toNat := rfl
  have hpg : (getTransactions db u
      ⟨some p, some l, ty, cat, sd, ed, m, y⟩).pagination.totalPages
      = jsMathCeil (Rat.divInt
          (((db.filter
              (txMatches u ⟨some p, some l, ty, cat, sd, ed, m, y⟩)).length
            : Int)) l) := rfl
  refine ⟨htx, ?_, rfl, ?_, ?_⟩
  · rw [htx, List.length_take]
    exact min_le_left _ _
  · rw [hpg, jsMathCeil_eq_ceil, Rat.divInt_eq_div, Int.cast_natCast]
    exact ceil_natCast_div _ l hl
  · intro h25 hl10 hp3
    subst hl10
    subst hp3
    rw [htx, List.length_take, List.length_drop, List.length_mergeSort, h25]
    rfl

/-- C7 witness: page 1 with limit 10 on the empty database returns at
most 10 records. -/
theorem C7_pagination_witness :
    (getTransactions [] ("alice")
      ⟨some 1, some 10, none, none, none, none, none, none⟩).transactions.length
      ≤ (10 : Int).toNat :=
  (C7_pagination [] ("alice") none none none none none none 1 10 (by decide)
    (by decide)).2.1

end Khata

namespace Khata

/-- An element not satisfying `p` survives `replaceFirst p`. -/
theorem mem_replaceFirst_of_neg (p : Transaction → Bool) (t' : Transaction)
    (l : List Transaction) :
    ∀ t ∈ l, p t = false → t ∈ replaceFirst p t' l := by
  induction l with
  | nil => intro t ht; cases ht
  | cons a r ih =>
    intro t ht hp
    rcases List.mem_cons.mp ht with rfl | htr
    · rw [replaceFirst, if_neg (by simp [hp])]
      exact List.mem_cons_self _ _
    · by_cases ha : p a = true
      · rw [replaceFirst, if_pos ha]
        exact List.mem_cons_of_mem _ htr
      · rw [replaceFirst, if_neg ha]
        exact List.mem_cons_of_mem _ (ih t htr hp)

/-- C1: tenant isolation.  A created record's userId is the caller's
identity, and a userId supplied in the body of a create or bulk-create
request is ignored; every record a list request returns belongs to the
caller; list and statistics results are unchanged if all other users'
records are removed from the database (they read only the caller's
records); update and delete leave every record of any other user in
place; and a successful update yields a record still owned by the
caller. -/
theorem C1_tenant_isolation :
    (∀ (u newId : String) (now : Int) (b : CreateBody) (t : Transaction),
        createTransaction u newId now b = .created t → t.userId = u)
    ∧ (∀ (u newId : String) (now : Int) (b : CreateBody) (v : Option String),
        createTransaction u newId now { b with userId := v }
          = createTransaction u newId now b)
    ∧ (∀ (u : String) (now : Int) (id : String) (row : BulkRow)
        (v : Option String),
        stampRow u now id { row with userId := v } = stampRow u now id row
          ∧ (stampRow u now id row).userId = u)
    ∧ (∀ (db : List Transaction) (u : String) (now : Int)
        (idGen : Nat → String) (body : Option (List BulkRow))
        (res : BulkResult) (db' : List Transaction),
        bulkCreateTransactions db u now idGen body = (res, db') →
        ∀ t ∈ db', t ∈ db ∨ t.userId = u)
    ∧ (∀ (db : List Transaction) (u : String) (q : ListQuery),
        ∀ t ∈ (getTransactions db u q).transactions, t.userId = u)
    ∧ (∀ (db : List Transaction) (u : String) (q : ListQuery),
        getTransactions db u q
          = getTransactions (db.filter fun t => t.userId == u) u q)
    ∧ (∀ (db : List Transaction) (u : String) (month year : Option Int),
        getStatistics db u month year
          = getStatistics (db.filter fun t => t.userId == u) u month year)
    ∧ (∀ (db : List Transaction) (u id : String) (b : UpdateBody)
        (res : UpdateResult) (db' : List Transaction),
        updateTransaction db u id b = (res, db') →
        ∀ t ∈ db, t.userId ≠ u → t ∈ db')
    ∧ (∀ (db : List Transaction) (u id : String) (res : DeleteResult)
        (db' : List Transaction),
        deleteTransaction db u id = (res, db') →
        ∀ t ∈ db, t.userId ≠ u → t ∈ db')
    ∧ (∀ (db : List Transaction) (u id : String) (b : UpdateBody)
        (t' : Transaction) (db' : List Transaction),
        updateTransaction db u id b = (.ok t', db') → t'.userId = u) := by
  have hfiltr : ∀ (db : List Transaction) (u : String) (p : Transaction → Bool),
      (∀ t, p t = true → t.userId == u) →
      db.filter p = (db.filter fun t => t.userId == u).filter p := by
    intro db u p himp
    rw [List.filter_filter]
    apply List.filter_congr
    intro t _
    cases h : p t
    · simp
    · simp [himp t h]
  refine ⟨?_, ?_, ?_, ?_, ?_, ?_, ?_, ?_, ?_, ?_⟩
  · intro u newId now b t h
    rw [createTransaction] at h
    split at h
    · cases h
    · split at h
      · cases h
      · split at h
        · cases h
        · dsimp only at h
          split at h
          · rename_i heq
            injection h with h'
            subst h'
            rfl
          · cases h
  · intro u newId now b v
    rfl
  · intro u now id row v
    exact ⟨rfl, rfl⟩
  · intro db u now idGen body res db' h t ht
    rcases body with _ | rows
    · rw [bulkCreateTransactions] at h
      cases h
      exact Or.inl ht
    · rw [bulkCreateTransactions] at h
      split at h
      · cases h
        exact Or.inl ht
      · cases h
        rcases List.mem_append.mp ht with hin | hin
        · exact Or.inl hin
        · right
          rcases List.mem_map.mp hin with ⟨r, hr, rfl⟩
          have hr2 : r ∈ bulkStamped u now idGen rows :=
            (List.mem_filter.mp hr).1
          rcases List.mem_map.mp hr2 with ⟨pr, _, rfl⟩
          rfl
  · intro db u q t ht
    have h1 : t ∈ ((db.filter (txMatches u q)).mergeSort txLe).drop
        ((q.page.getD 1 - 1) * q.limit.getD 10).toNat :=
      List.mem_of_mem_take ht
    have h2 : t ∈ (db.filter (txMatches u q)).mergeSort txLe :=
      List.mem_of_mem_drop h1
    have h3 : t ∈ db.filter (txMatches u q) := List.mem_mergeSort.mp h2
    have h4 := (List.mem_filter.mp h3).2
    rw [txMatches] at h4
    simp only [Bool.and_eq_true, beq_iff_eq] at h4
    exact h4.1.1.1
  · intro db u q
    have h := hfiltr db u (txMatches u q) (fun t ht => by
      rw [txMatches] at ht
      simp only [Bool.and_eq_true] at ht
      exact ht.1.1.1)
    simp only [getTransactions, h]
  · intro db u month year
    have h : statsMatched db u month year
        = statsMatched (db.filter fun t => t.userId == u) u month year := by
      rw [statsMatched, statsMatched]
      exact hfiltr db u _ (fun t ht => by
        simp only [Bool.and_eq_true] at ht
        exact ht.1)
    rw [getStatistics, getStatistics, h]
  · intro db u id b res db' h t ht htu
    rw [updateTransaction] at h
    split at h
    · cases h
      exact ht
    · split at h
      · cases h
        exact ht
      · dsimp only at h
        split at h
        · cases h
          exact mem_replaceFirst_of_neg _ _ db t ht (by simp [htu])
        · cases h
          exact ht
  · intro db u id res db' h t ht htu
    rw [deleteTransaction] at h
    split at h
    · cases h
      exact ht
    · split at h
      · cases h
        exact ht
      · cases h
        exact (List.mem_eraseP_of_neg (by simp [htu])).mpr ht
  · intro db u id b t' db' h
    by_cases hid : isValidObjectId id = true
    · rcases hf : db.find? (fun t => t.id == id && t.userId == u) with _ | t₀
      · have heq : updateTransaction db u id b = (.notFound, db) := by
          simp [updateTransaction, hid, hf]
        rw [heq] at h
        injection h with h1 h2
        cases h1
      · rcases hsv : schemaValidate (applyUpdates t₀ b) with _ | ⟨e, es⟩
        · have heq : updateTransaction db u id b
              = (.ok (toStored (applyUpdates t₀ b)),
                 replaceFirst (fun x => x.id == id && x.userId == u)
                   (toStored (applyUpdates t₀ b)) db) := by
            simp [updateTransaction, hid, hf, hsv]
          rw [heq] at h
          injection h with h1 h2
          injection h1 with h1'
          have hp := List.find?_some hf
          simp only [Bool.and_eq_true, beq_iff_eq] at hp
          rw [← h1']
          have hau : (applyUpdates t₀ b).userId = t₀.userId := by
            rw [applyUpdates_eq]
          rw [toStored]
          simp only [hau]
          exact hp.2
        · have heq : updateTransaction db u id b
              = (.validationError (e :: es), db) := by
            simp [updateTransaction, hid, hf, hsv]
          rw [heq] at h
          injection h with h1 h2
          cases h1
    · have heq : updateTransaction db u id b = (.invalidId, db) := by
        have hid' : isValidObjectId id = false := by simpa using hid
        simp [updateTransaction, hid']
      rw [heq] at h
      injection h with h1 h2
      cases h1

/-- C1 witness: a concrete create whose body carries a foreign userId
still persists the record under the caller's identity. -/
theorem C1_tenant_isolation_witness :
    (createTransaction ("alice") ("id1") 0
        { userId := some ("mallory"), date := none, description := some ("a"),
          category := some ("Other"), type := some ("income"),
          amount := some (.fin 7) }
      = .created
          { id := "id1", userId := "alice", date := 0, createdAt := 0,
            description := jsTrim ("a"), category := "Other",
            type := "income", amount := 7 })
    ∧ Transaction.userId
        { id := "id1", userId := "alice", date := 0, createdAt := 0,
          description := jsTrim ("a"), category := "Other",
          type := "income", amount := 7 } = "alice" := by
  have hc : createTransaction ("alice") ("id1") 0
      { userId := some ("mallory"), date := none, description := some ("a"),
        category := some ("Other"), type := some ("income"),
        amount := some (.fin 7) }
      = .created
          { id := "id1", userId := "alice", date := 0, createdAt := 0,
            description := jsTrim ("a"), category := "Other",
            type := "income", amount := 7 } := by decide
  exact ⟨hc, C1_tenant_isolation.1 ("alice") ("id1") 0 _ _ hc⟩

end Khata
